import Mathlib

/-!
Verification of the deterministic core of the anti-slop-system repository:
the OKLCH palette generator (`scripts/generate-palette.ts`) and the Design
DNA validator (`scripts/validate-dna.ts`).

Modelling conventions:
* JavaScript numbers are modelled as exact rationals (`ℚ`).  All constants
  of the source (0.02, 0.05, 0.95, 4.5, 7.0, …) are written as the exact
  rationals they denote.
* Both scripts delegate the computation of a WCAG contrast ratio to the
  external `chroma-js` library (`chroma.contrast`).  That library is not
  part of the repository, so the contrast oracle is passed around as an
  explicit function argument `ratio : OKLCHColor → OKLCHColor → ℚ`; every
  theorem about loop / scoring structure is proved for an arbitrary oracle.
* The JavaScript `while` loop of `ensureContrast` is embedded with an
  explicit fuel argument; fuel 46 is provably enough for the loop to reach
  its stopping condition (see the termination lemmas below), so the fuelled
  function agrees with the unbounded loop.
* Fields of the validator input that the script reads without optional
  chaining are plain fields; fields whose absence the script survives
  (guards such as `textColor && bgColor`, `springs?.[...]`, `spacing?.base`,
  `generative?.noise`) or whose absence makes the script throw a
  `TypeError` (`meta.personality`, `families.heading`, `geometry.borderRadius`)
  are `Option`s, and a throwing access is modelled as `Except.error ()`.
* JavaScript `String.prototype.toLowerCase` is modelled as mapping
  `Char.toLower` over the characters, and `String.prototype.includes` as a
  substring test.
-/

namespace AntiSlop

/-- OKLCH color triple, as in both scripts: `{ l, c, h }`. -/
structure OKLCHColor where
  l : ℚ
  c : ℚ
  h : ℚ
deriving DecidableEq, Repr

/-- The seven-role palette returned by the generator. -/
structure GeneratedPalette where
  primary : OKLCHColor
  secondary : OKLCHColor
  accent : OKLCHColor
  background : OKLCHColor
  text : OKLCHColor
  muted : OKLCHColor
  border : OKLCHColor
deriving DecidableEq, Repr

/-- The four harmony modes of `generate-palette.ts`. -/
inductive HarmonyMode where
  | monochromatic
  | analogous
  | splitComplementary
  | triadic
deriving DecidableEq, Repr

/-- Truncation toward zero, the rounding used by the JavaScript `%` operator. -/
def qtrunc (q : ℚ) : ℤ := if 0 ≤ q then ⌊q⌋ else ⌈q⌉

/-- JavaScript remainder `a % b`: `a - b * trunc (a / b)`. -/
def jsMod (a b : ℚ) : ℚ := a - b * (qtrunc (a / b) : ℚ)

/-- Source: `normalizeHue(h) { return ((h % 360) + 360) % 360; }`. -/
def normalizeHue (h : ℚ) : ℚ := jsMod (jsMod h 360 + 360) 360

/-- Source: `const direction = bg.l > 0.5 ? -1 : 1;` in `ensureContrast`. -/
def contrastDirection (bg : OKLCHColor) : ℚ := if 1/2 < bg.l then -1 else 1

/-- Fuelled embedding of the `while` loop of `ensureContrast`:
`while (ratio < minRatio && adjusted.l > 0.05 && adjusted.l < 0.95) { adjusted.l += direction * 0.02; ratio = ...; }`.
The contrast ratio is recomputed from the current color at every test, so the
loop state is just the adjusted color. -/
def ensureContrastAux (ratio : OKLCHColor → OKLCHColor → ℚ) (bg : OKLCHColor)
    (minRatio direction : ℚ) : ℕ → OKLCHColor → OKLCHColor
  | 0, adjusted => adjusted
  | n+1, adjusted =>
    if ratio adjusted bg < minRatio ∧ 1/20 < adjusted.l ∧ adjusted.l < 19/20 then
      ensureContrastAux ratio bg minRatio direction n
        { adjusted with l := adjusted.l + direction * (1/50) }
    else adjusted

/-- Fuel used to run the repair loop; 46 is provably more than the loop can
ever consume, so this choice is not observable. -/
def contrastFuel : ℕ := 46

/-- Source: `ensureContrast(fg, bg, minRatio)` of `generate-palette.ts`. -/
def ensureContrast (ratio : OKLCHColor → OKLCHColor → ℚ)
    (fg bg : OKLCHColor) (minRatio : ℚ) : OKLCHColor :=
  ensureContrastAux ratio bg minRatio (contrastDirection bg) contrastFuel fg

/-- The palette constructed by the `switch (mode)` block of `generatePalette`,
before the contrast-repair pass. -/
def initialPalette (baseHue : ℚ) (mode : HarmonyMode) (isDark : Bool) : GeneratedPalette :=
  let h := normalizeHue baseHue
  let bgL : ℚ := if isDark then 12/100 else 98/100
  let textL : ℚ := if isDark then 92/100 else 18/100
  let bgC : ℚ := if isDark then 2/100 else 1/100
  match mode with
  | .monochromatic =>
    { primary := ⟨if isDark then 65/100 else 45/100, 15/100, h⟩
      secondary := ⟨if isDark then 55/100 else 55/100, 10/100, h⟩
      accent := ⟨if isDark then 70/100 else 55/100, 20/100, normalizeHue (h + 180)⟩
      background := ⟨bgL, bgC, h⟩
      text := ⟨textL, 2/100, h⟩
      muted := ⟨if isDark then 35/100 else 65/100, 4/100, h⟩
      border := ⟨if isDark then 25/100 else 85/100, 2/100, h⟩ }
  | .analogous =>
    { primary := ⟨if isDark then 65/100 else 45/100, 15/100, h⟩
      secondary := ⟨if isDark then 60/100 else 50/100, 12/100, normalizeHue (h + 30)⟩
      accent := ⟨if isDark then 70/100 else 55/100, 18/100, normalizeHue (h - 30)⟩
      background := ⟨bgL, bgC, h⟩
      text := ⟨textL, 2/100, h⟩
      muted := ⟨if isDark then 35/100 else 65/100, 4/100, normalizeHue (h + 15)⟩
      border := ⟨if isDark then 25/100 else 85/100, 2/100, h⟩ }
  | .splitComplementary =>
    let complement := normalizeHue (h + 180)
    { primary := ⟨if isDark then 65/100 else 45/100, 15/100, h⟩
      secondary := ⟨if isDark then 60/100 else 52/100, 12/100, normalizeHue (complement + 30)⟩
      accent := ⟨if isDark then 70/100 else 58/100, 18/100, normalizeHue (complement - 30)⟩
      background := ⟨bgL, bgC, h⟩
      text := ⟨textL, 2/100, h⟩
      muted := ⟨if isDark then 35/100 else 65/100, 4/100, h⟩
      border := ⟨if isDark then 25/100 else 85/100, 2/100, h⟩ }
  | .triadic =>
    { primary := ⟨if isDark then 65/100 else 45/100, 15/100, h⟩
      secondary := ⟨if isDark then 60/100 else 50/100, 12/100, normalizeHue (h + 120)⟩
      accent := ⟨if isDark then 70/100 else 55/100, 18/100, normalizeHue (h + 240)⟩
      background := ⟨bgL, bgC, h⟩
      text := ⟨textL, 2/100, normalizeHue (h + 120)⟩
      muted := ⟨if isDark then 35/100 else 65/100, 4/100, h⟩
      border := ⟨if isDark then 25/100 else 85/100, 2/100, h⟩ }

/-- Source: `generatePalette(baseHue, mode, isDark)`: build the mode-specific
palette, then `palette.text = ensureContrast(palette.text, palette.background, 7.0);`
and `palette.primary = ensureContrast(palette.primary, palette.background, 4.5);`. -/
def generatePalette (ratio : OKLCHColor → OKLCHColor → ℚ)
    (baseHue : ℚ) (mode : HarmonyMode) (isDark : Bool) : GeneratedPalette :=
  let palette := initialPalette baseHue mode isDark
  let palette := { palette with text := ensureContrast ratio palette.text palette.background 7 }
  { palette with primary := ensureContrast ratio palette.primary palette.background (9/2) }

/-! Validator: data model of `validate-dna.ts`. -/

/-- The `meta` section.  `personality` is read without a guard
(`dna.meta.personality.filter(...)`), so its absence throws; it is an
`Option` whose `none` case models the absent field. -/
structure Meta where
  projectName : String
  version : String
  personality : Option (List String)
  antiPatterns : List String
deriving DecidableEq, Repr

/-- Author-stated contrast ratios. -/
structure ContrastRatios where
  textOnBackground : ℚ
deriving DecidableEq, Repr

/-- The palette roles the validator reads (`palette.text`, `palette.background`);
the source guards both with `if (textColor && bgColor)`. -/
structure ColorPalette where
  text : Option OKLCHColor
  background : Option OKLCHColor
deriving DecidableEq, Repr

/-- The `primitives.color` section. -/
structure ColorPrimitive where
  model : String
  palette : ColorPalette
  contrastRatios : ContrastRatios
deriving DecidableEq, Repr

/-- The `primitives.typography.scale` section; `ratio = 0` models a falsy
(`!scale.ratio`) value. -/
structure TypographyScale where
  base : ℚ
  ratio : ℚ
deriving DecidableEq, Repr

/-- Font stacks; `heading` is read as `families.heading[0]?...` and
`families.heading.length`, both of which throw when the array is absent. -/
structure FontFamilies where
  heading : Option (List String)
  body : List String
deriving DecidableEq, Repr

/-- The `primitives.typography` section. -/
structure TypographyPrimitive where
  scale : TypographyScale
  families : FontFamilies
deriving DecidableEq, Repr

/-- A named spring configuration. -/
structure Spring where
  stiffness : ℚ
  damping : ℚ
  mass : ℚ
deriving DecidableEq, Repr

/-- The `primitives.motion` section; `springs` is guarded in the source
(`!springs`, `springs?.[...]`), so absence is tolerated. -/
structure MotionPrimitive where
  springs : Option (List (String × Spring))
  defaultSpring : String
  reducedMotion : String
deriving DecidableEq, Repr

/-- The `geometry.spacing` section, guarded by `spacing?.base`. -/
structure Spacing where
  base : ℚ
deriving DecidableEq, Repr

/-- The `primitives.geometry` section; `Object.values(geometry.borderRadius)`
throws when `borderRadius` is absent. -/
structure GeometryPrimitive where
  borderRadius : Option (List (String × String))
  spacing : Option Spacing
deriving DecidableEq, Repr

/-- The `primitives` section. -/
structure Primitives where
  color : ColorPrimitive
  typography : TypographyPrimitive
  motion : MotionPrimitive
  geometry : GeometryPrimitive
deriving DecidableEq, Repr

/-- Layout jitter settings (contents never read by the validator). -/
structure LayoutJitter where
  maxOffset : ℚ
  rotationRange : List ℚ
deriving DecidableEq, Repr

/-- Generative noise settings; `seed` read as a possibly-absent, possibly
empty (falsy) string. -/
structure Noise where
  seed : Option String
  layoutJitter : Option LayoutJitter
deriving DecidableEq, Repr

/-- The `generative` section, guarded in the source by `dna.generative?.noise`. -/
structure Generative where
  noise : Option Noise
deriving DecidableEq, Repr

/-- The full Design DNA document. -/
structure DesignDNA where
  meta : Meta
  primitives : Primitives
  generative : Option Generative
deriving DecidableEq, Repr

/-- The six category scores, in the insertion order of the source. -/
structure Scores where
  colorSystem : ℕ
  typographySystem : ℕ
  motionSystem : ℕ
  geometricSystem : ℕ
  uniqueness : ℕ
  technicalValidity : ℕ
deriving DecidableEq, Repr

/-- Result shape of `validateDesignDNA`. -/
structure ValidationResult where
  valid : Bool
  errors : List String
  warnings : List String
  scores : Scores
deriving DecidableEq, Repr

/-- Source: `const BANNED_FONTS = [...]`. -/
def BANNED_FONTS : List String :=
  ["inter", "roboto", "open sans", "poppins", "montserrat",
   "lato", "nunito", "source sans pro", "raleway", "oswald"]

/-- Source: `const GENERIC_PERSONALITY_WORDS = [...]`. -/
def GENERIC_PERSONALITY_WORDS : List String :=
  ["modern", "clean", "professional", "simple", "elegant",
   "minimalist", "sleek", "beautiful", "nice", "good"]

/-- Character-wise lower-casing, modelling `toLowerCase()` on font names. -/
def strToLower (s : String) : String := ⟨s.data.map Char.toLower⟩

/-- Substring test, modelling `String.prototype.includes`. -/
def isSubstr (needle hay : String) : Bool :=
  hay.toList.tails.any fun t => needle.toList.isPrefixOf t

/-- Rendering of a possibly-undefined string into a template literal,
as JavaScript does. -/
def optFontStr : Option String → String
  | some s => s
  | none => "undefined"

/-- Source: `BANNED_FONTS.some(f => font?.includes(f))`. -/
def fontBanned : Option String → Bool
  | some s => BANNED_FONTS.any fun f => isSubstr f s
  | none => false

/-- Section 1 of `validateDesignDNA` (color): returns the errors, warnings
and `colorScore` it produces.  Note the source order: the `model` check may
set the score to 1, and the later contrast branch may overwrite it with 3
or 4. -/
def validateColor (ratio : OKLCHColor → OKLCHColor → ℚ) (c : ColorPrimitive) :
    List String × List String × ℕ :=
  let e1 : List String :=
    if c.model ≠ "oklch" then ["Color model must be \"oklch\""] else []
  let s1 : ℕ := if c.model ≠ "oklch" then 1 else 4
  match c.palette.text, c.palette.background with
  | some textColor, some bgColor =>
    let calculatedContrast := ratio textColor bgColor
    let statedContrast := c.contrastRatios.textOnBackground
    let e2 : List String :=
      if calculatedContrast < 9/2 then
        ["Text contrast ratio (" ++ toString calculatedContrast ++ ") fails WCAG AA (needs 4.5+)"]
      else []
    let w2 : List String :=
      if calculatedContrast < 9/2 then []
      else if 1/2 < |calculatedContrast - statedContrast| then
        ["Stated contrast (" ++ toString statedContrast ++ ") differs from calculated (" ++
          toString calculatedContrast ++ ")"]
      else []
    let s2 : ℕ := if calculatedContrast < 9/2 then 1 else s1
    let s3 : ℕ :=
      if 7 ≤ calculatedContrast then 4
      else if 9/2 ≤ calculatedContrast then 3
      else s2
    (e1 ++ e2, w2, s3)
  | _, _ => (e1, [], s1)

/-- Section 2 of `validateDesignDNA` (typography).  The first statement of
the section reads `families.heading[0]`, which throws when `heading` is
absent; that is the only throwing access here. -/
def validateTypography (t : TypographyPrimitive) :
    Except Unit (List String × List String × ℕ) :=
  match t.families.heading with
  | none => .error ()
  | some hs =>
    let headingFont := hs.head?.map strToLower
    let bodyFont := t.families.body.head?.map strToLower
    let hf := optFontStr headingFont
    let bf := optFontStr bodyFont
    let e1 : List String :=
      if fontBanned headingFont then ["Heading font \"" ++ hf ++ "\" is banned (too common)"] else []
    let s1 : ℕ := if fontBanned headingFont then 1 else 4
    let e2 : List String :=
      if fontBanned bodyFont ∧ bodyFont ≠ some "inter" then
        ["Body font \"" ++ bf ++ "\" is banned (too common)"]
      else []
    let s2 : ℕ :=
      if fontBanned bodyFont ∧ bodyFont ≠ some "inter" then min s1 2 else s1
    let e3 : List String :=
      if t.scale.ratio = 0 then ["Typography must define a modular scale ratio"] else []
    let s3 : ℕ := if t.scale.ratio = 0 then 1 else s2
    let w : List String :=
      if hs.length < 2 then ["Heading font stack should include fallbacks"] else []
    .ok (e1 ++ e2 ++ e3, w, s3)

/-- Section 3 of `validateDesignDNA` (motion); all accesses are guarded, so
this section is total. -/
def validateMotion (m : MotionPrimitive) : List String × List String × ℕ :=
  let springsMissing : Bool :=
    match m.springs with
    | none => true
    | some l => l.isEmpty
  let e1 : List String :=
    if springsMissing then ["Motion must define spring physics (not just easing)"] else []
  let s1 : ℕ := if springsMissing then 1 else 4
  let w2 : List String :=
    if m.reducedMotion ≠ "respectSystem" then
      ["Consider setting reducedMotion to \"respectSystem\" for accessibility"]
    else []
  let s2 : ℕ := if m.reducedMotion ≠ "respectSystem" then min s1 3 else s1
  let ds := m.defaultSpring
  let defaultSpring := m.springs.bind fun l => l.lookup ds
  let e3 : List String :=
    if defaultSpring.isNone then ["Default spring \"" ++ ds ++ "\" not found in springs"] else []
  let s3 : ℕ := if defaultSpring.isNone then min s2 2 else s2
  (e1 ++ e3, w2, s3)

/-- Section 4 of `validateDesignDNA` (geometry).  `Object.values(borderRadius)`
throws when `borderRadius` is absent. -/
def validateGeometry (g : GeometryPrimitive) :
    Except Unit (List String × List String × ℕ) :=
  match g.borderRadius with
  | none => .error ()
  | some br =>
    let radiusValues := br.map Prod.snd
    let uniqueRadii :=
      (radiusValues.filter fun v => v ≠ "0px" ∧ v ≠ "9999px").dedup
    let w1 : List String :=
      if uniqueRadii.length < 2 then ["Border radius should vary by component type"] else []
    let s1 : ℕ := if uniqueRadii.length < 2 then 3 else 4
    let baseMissing : Bool :=
      match g.spacing with
      | none => true
      | some sp => sp.base = 0
    let e2 : List String :=
      if baseMissing then ["Spacing must define a base unit"] else []
    let s2 : ℕ := if baseMissing then min s1 2 else s1
    .ok (e2, w1, s2)

/-- Falsiness of a possibly-absent string (`!seed`). -/
def strFalsy : Option String → Bool
  | none => true
  | some s => s = ""

/-- Section 5 of `validateDesignDNA` (uniqueness).  `meta.personality.filter`
throws when `personality` is absent. -/
def validateUniqueness (meta : Meta) (generative : Option Generative) :
    Except Unit (List String × List String × ℕ) :=
  match meta.personality with
  | none => .error ()
  | some ps =>
    let genericPersonality :=
      ps.filter fun p => GENERIC_PERSONALITY_WORDS.contains (strToLower p)
    let joined := String.intercalate ", " genericPersonality
    let w1 : List String :=
      if genericPersonality.length ≠ 0 then
        ["Generic personality words detected: " ++ joined]
      else []
    let s1 : ℕ := if genericPersonality.length ≠ 0 then min 4 2 else 4
    let e2 : List String :=
      if meta.antiPatterns.length = 0 then
        ["Must define at least one anti-pattern to avoid"]
      else []
    let s2 : ℕ := if meta.antiPatterns.length = 0 then min s1 2 else s1
    let noise := generative.bind Generative.noise
    match noise with
    | none =>
      .ok (e2 ++ ["Generative noise configuration is required"], w1, min s2 2)
    | some n =>
      let ea : List String :=
        if strFalsy n.seed then ["Generative noise must include a deterministic seed"] else []
      let sa : ℕ := if strFalsy n.seed then min s2 2 else s2
      let eb : List String :=
        if n.layoutJitter.isNone then ["Generative noise must include layoutJitter settings"] else []
      let sb : ℕ := if n.layoutJitter.isNone then min sa 2 else sa
      .ok (e2 ++ ea ++ eb, w1, sb)

/-- Minimum of the six category scores, `Math.min(...allScores)`. -/
def minScore (s : Scores) : ℕ :=
  min (min (min (min (min s.colorSystem s.typographySystem) s.motionSystem)
    s.geometricSystem) s.uniqueness) s.technicalValidity

/-- Final result assembly of `validateDesignDNA`:
`valid: minScore >= 3 && errors.length === 0`. -/
def mkResult (e w : List String) (s : Scores) : ValidationResult :=
  { valid := decide (3 ≤ minScore s) && e.isEmpty
    errors := e
    warnings := w
    scores := s }

/-- The five rule sections of `validateDesignDNA`, run in source order, with
errors and warnings concatenated in push order and `technicalValidity`
computed from the final error list. -/
def validateCore (ratio : OKLCHColor → OKLCHColor → ℚ) (dna : DesignDNA) :
    Except Unit (List String × List String × Scores) :=
  let c := validateColor ratio dna.primitives.color
  (validateTypography dna.primitives.typography).bind fun t =>
  let m := validateMotion dna.primitives.motion
  (validateGeometry dna.primitives.geometry).bind fun g =>
  (validateUniqueness dna.meta dna.generative).bind fun u =>
  let errors := c.1 ++ t.1 ++ m.1 ++ g.1 ++ u.1
  let warnings := c.2.1 ++ t.2.1 ++ m.2.1 ++ g.2.1 ++ u.2.1
  let techScore : ℕ := if errors.isEmpty then 4 else 2
  .ok (errors, warnings,
    ⟨c.2.2, t.2.2, m.2.2, g.2.2, u.2.2, techScore⟩)

/-- Source: `validateDesignDNA(dna)`; `.error ()` models a thrown
`TypeError`. -/
def validateDesignDNA (ratio : OKLCHColor → OKLCHColor → ℚ) (dna : DesignDNA) :
    Except Unit ValidationResult :=
  (validateCore ratio dna).map fun r => mkResult r.1 r.2.1 r.2.2

/-- Replace the body font stack of a document, leaving everything else
untouched (used to express that an exact body font "Inter" is treated like
an unbanned font). -/
def withBodyFonts (dna : DesignDNA) (b : List String) : DesignDNA :=
  { dna with primitives := { dna.primitives with typography :=
      { dna.primitives.typography with families :=
        { dna.primitives.typography.families with body := b } } } }

/-! Concrete inputs used by witnesses and counterexamples.  The contrast
oracle is abstract in the embedding, so witnesses fix simple concrete
oracles; `oracle13` returns 13, roughly what `chroma.contrast` yields for
the near-black-on-near-white pair used below, and `oracle1` returns 1,
the behaviour of a pair whose contrast target is unreachable. -/

/-- Constant contrast oracle returning 13. -/
def oracle13 : OKLCHColor → OKLCHColor → ℚ := fun _ _ => 13

/-- Constant contrast oracle returning 1 (target never reached). -/
def oracle1 : OKLCHColor → OKLCHColor → ℚ := fun _ _ => 1

/-- Constant contrast oracle returning 21 (target met at once). -/
def oracle21 : OKLCHColor → OKLCHColor → ℚ := fun _ _ => 21

/-- Mid-lightness foreground used by the loop witnesses. -/
def wFg : OKLCHColor := ⟨1/2, 1/10, 40⟩

/-- Light background used by the loop witnesses. -/
def wBg : OKLCHColor := ⟨98/100, 1/100, 220⟩

/-- A color section that passes every color rule. -/
def cGood : ColorPrimitive :=
  { model := "oklch"
    palette := { text := some ⟨18/100, 2/100, 220⟩, background := some ⟨98/100, 1/100, 220⟩ }
    contrastRatios := { textOnBackground := 13 } }

/-- A typography section whose body stack starts with the exact font
"Inter" and whose heading font is unbanned. -/
def tGood : TypographyPrimitive :=
  { scale := { base := 18, ratio := 5/4 }
    families := { heading := some ["Fraunces", "serif"], body := ["Inter", "sans-serif"] } }

/-- A motion section that passes every motion rule. -/
def mGood : MotionPrimitive :=
  { springs := some [("gentle", ⟨120, 14, 1⟩)]
    defaultSpring := "gentle"
    reducedMotion := "respectSystem" }

/-- A geometry section that passes every geometry rule. -/
def gGood : GeometryPrimitive :=
  { borderRadius := some [("sm", "4px"), ("lg", "12px")]
    spacing := some { base := 4 } }

/-- A meta section with no generic personality words. -/
def metaGood : Meta :=
  { projectName := "demo", version := "1.0"
    personality := some ["brutalist", "warm"], antiPatterns := ["glassmorphism"] }

/-- A generative section that passes every noise rule. -/
def genGood : Option Generative :=
  some { noise := some { seed := some "demo-seed", layoutJitter := some ⟨4, [-1, 1]⟩ } }

/-- A document that passes every rule except that its body font is the
exact string "Inter". -/
def goodDoc : DesignDNA :=
  { meta := metaGood
    primitives := { color := cGood, typography := tGood, motion := mGood, geometry := gGood }
    generative := genGood }

/-- The result of validating `goodDoc`. -/
def goodRes : ValidationResult := ⟨true, [], [], ⟨4, 4, 4, 4, 4, 4⟩⟩

/-- `goodDoc` with its color model set to "hex" (text and background still
present, with high recomputed contrast). -/
def hexDoc : DesignDNA :=
  { goodDoc with primitives := { goodDoc.primitives with color := { cGood with model := "hex" } } }

/-- The result of validating `hexDoc`: the hard error is emitted, but the
contrast branch has overwritten the color score back to 4. -/
def hexRes : ValidationResult :=
  ⟨false, ["Color model must be \"oklch\""], [], ⟨4, 4, 4, 4, 4, 2⟩⟩

/-- `goodDoc` with color model "hex" and no text/background palette
entries. -/
def hexNoPalDoc : DesignDNA :=
  { goodDoc with primitives := { goodDoc.primitives with color :=
      { model := "hex", palette := { text := none, background := none },
        contrastRatios := { textOnBackground := 13 } } } }

/-- The result of validating `hexNoPalDoc`. -/
def hexNoPalRes : ValidationResult :=
  ⟨false, ["Color model must be \"oklch\""], [], ⟨1, 4, 4, 4, 4, 2⟩⟩

/-- `goodDoc` with heading stack starting with "Inter". -/
def interHeadDoc : DesignDNA :=
  { goodDoc with primitives := { goodDoc.primitives with typography :=
      { tGood with families := { heading := some ["Inter", "serif"], body := ["Inter", "sans-serif"] } } } }

/-- The result of validating `interHeadDoc`. -/
def interHeadRes : ValidationResult :=
  ⟨false, ["Heading font \"inter\" is banned (too common)"], [], ⟨4, 1, 4, 4, 4, 2⟩⟩

/-- `goodDoc` with the `meta.personality` array absent. -/
def noPersonalityDoc : DesignDNA :=
  { goodDoc with meta := { metaGood with personality := none } }

/-! Helper lemmas about hue normalization. -/

/-- Projection of a lightness update. -/
theorem setL_l (c : OKLCHColor) (x : ℚ) : ({ c with l := x } : OKLCHColor).l = x := rfl

/-- The JavaScript remainder by 360 lies strictly between -360 and 360. -/
theorem jsMod_range (a : ℚ) : -360 < jsMod a 360 ∧ jsMod a 360 < 360 := by
  unfold jsMod qtrunc
  have h3 : 360 * (a / 360) = a := by field_simp
  rcases le_or_lt 0 (a / 360) with h | h
  · rw [if_pos h]
    have h1 : (⌊a / 360⌋ : ℚ) ≤ a / 360 := Int.floor_le _
    have h2 : a / 360 < ⌊a / 360⌋ + 1 := Int.lt_floor_add_one _
    constructor <;> nlinarith
  · rw [if_neg (not_le.mpr h)]
    have h1 : (a / 360) ≤ ⌈a / 360⌉ := Int.le_ceil _
    have h2 : (⌈a / 360⌉ : ℚ) < a / 360 + 1 := Int.ceil_lt_add_one _
    constructor <;> nlinarith

/-- On nonnegative input the JavaScript remainder by 360 lands in [0, 360). -/
theorem jsMod_nonneg_range (a : ℚ) (ha : 0 ≤ a) : 0 ≤ jsMod a 360 ∧ jsMod a 360 < 360 := by
  unfold jsMod qtrunc
  have h3 : 360 * (a / 360) = a := by field_simp
  have h : (0:ℚ) ≤ a / 360 := by positivity
  rw [if_pos h]
  have h1 : (⌊a / 360⌋ : ℚ) ≤ a / 360 := Int.floor_le _
  have h2 : a / 360 < ⌊a / 360⌋ + 1 := Int.lt_floor_add_one _
  constructor <;> nlinarith

/-- `normalizeHue` lands in [0, 360). -/
theorem normalizeHue_range (x : ℚ) : 0 ≤ normalizeHue x ∧ normalizeHue x < 360 := by
  unfold normalizeHue
  exact jsMod_nonneg_range _ (by linarith [(jsMod_range x).1])

/-- `normalizeHue` changes its argument by an integer multiple of 360. -/
theorem normalizeHue_sub_int (x : ℚ) : ∃ k : ℤ, normalizeHue x = x + 360 * k := by
  refine ⟨-1 - qtrunc ((jsMod x 360 + 360) / 360) - qtrunc (x / 360) + 2, ?_⟩
  unfold normalizeHue jsMod
  push_cast
  ring

/-- Arguments that differ by an integer multiple of 360 normalize equally. -/
theorem normalizeHue_congr (x y : ℚ) (k : ℤ) (hxy : x = y + 360 * k) :
    normalizeHue x = normalizeHue y := by
  obtain ⟨m, hm⟩ := normalizeHue_sub_int x
  obtain ⟨n, hn⟩ := normalizeHue_sub_int y
  have hr1 := normalizeHue_range x
  have hr2 := normalizeHue_range y
  have hd : normalizeHue x - normalizeHue y = 360 * ((k + m - n : ℤ) : ℚ) := by
    rw [hm, hn, hxy]; push_cast; ring
  have hz : (k + m - n : ℤ) = 0 := by
    by_contra hne
    have h1 : (1:ℚ) ≤ |((k + m - n : ℤ) : ℚ)| := by
      rw [← Int.cast_abs]
      exact_mod_cast Int.one_le_abs hne
    have h2 : |normalizeHue x - normalizeHue y| < 360 := by
      rw [abs_lt]; constructor <;> linarith [hr1.1, hr1.2, hr2.1, hr2.2]
    rw [hd, abs_mul] at h2
    have h360 : |(360:ℚ)| = 360 := by norm_num
    rw [h360] at h2
    nlinarith
  rw [hz] at hd
  push_cast at hd
  linarith

/-- Adding a full turn does not change the normalized hue. -/
theorem normalizeHue_add_360 (x : ℚ) : normalizeHue (x + 360) = normalizeHue x :=
  normalizeHue_congr _ _ 1 (by push_cast; ring)

/-- Normalizing before adding an offset gives the same hue as normalizing
after. -/
theorem normalizeHue_add_left (x a : ℚ) :
    normalizeHue (normalizeHue x + a) = normalizeHue (x + a) := by
  obtain ⟨m, hm⟩ := normalizeHue_sub_int x
  exact normalizeHue_congr _ _ m (by rw [hm]; ring)

/-! Helper lemmas about the contrast-repair loop. -/

/-- The loop only ever touches the lightness component. -/
theorem ensureContrastAux_c_h (ratio : OKLCHColor → OKLCHColor → ℚ) (bg : OKLCHColor)
    (m d : ℚ) : ∀ (n : ℕ) (c : OKLCHColor),
    (ensureContrastAux ratio bg m d n c).c = c.c ∧ (ensureContrastAux ratio bg m d n c).h = c.h := by
  intro n
  induction n with
  | zero => intro c; exact ⟨rfl, rfl⟩
  | succ n ih =>
    intro c
    rw [ensureContrastAux]
    split
    · exact (ih _)
    · exact ⟨rfl, rfl⟩

/-- Chroma is preserved by `ensureContrast`. -/
theorem ensureContrast_c (ratio : OKLCHColor → OKLCHColor → ℚ) (fg bg : OKLCHColor) (m : ℚ) :
    (ensureContrast ratio fg bg m).c = fg.c :=
  (ensureContrastAux_c_h ratio bg m (contrastDirection bg) contrastFuel fg).1

/-- Hue is preserved by `ensureContrast`. -/
theorem ensureContrast_h (ratio : OKLCHColor → OKLCHColor → ℚ) (fg bg : OKLCHColor) (m : ℚ) :
    (ensureContrast ratio fg bg m).h = fg.h :=
  (ensureContrastAux_c_h ratio bg m (contrastDirection bg) contrastFuel fg).2

/-- Post-condition of the darkening loop, given enough fuel for the start
lightness: on exit either the target is met or the lightness has left the
open interval (0.05, 0.95). -/
theorem ensureContrastAux_post_neg (ratio : OKLCHColor → OKLCHColor → ℚ) (bg : OKLCHColor)
    (m : ℚ) : ∀ (n : ℕ) (c : OKLCHColor), c.l ≤ 1/20 + (n : ℚ) * (1/50) →
    m ≤ ratio (ensureContrastAux ratio bg m (-1) n c) bg ∨
    (ensureContrastAux ratio bg m (-1) n c).l ≤ 1/20 ∨
    19/20 ≤ (ensureContrastAux ratio bg m (-1) n c).l := by
  intro n
  induction n with
  | zero =>
    intro c hc
    rw [ensureContrastAux]
    right; left
    simpa using hc
  | succ n ih =>
    intro c hc
    rw [ensureContrastAux]
    split
    case isTrue hguard =>
      apply ih
      simp only [setL_l]
      push_cast at hc
      linarith
    case isFalse hguard =>
      push_neg at hguard
      rcases lt_or_le (ratio c bg) m with hr | hr
      · rcases le_or_lt c.l (1/20) with hl | hl
        · exact Or.inr (Or.inl hl)
        · exact Or.inr (Or.inr (hguard hr hl))
      · exact Or.inl hr

/-- Post-condition of the lightening loop, given enough fuel. -/
theorem ensureContrastAux_post_pos (ratio : OKLCHColor → OKLCHColor → ℚ) (bg : OKLCHColor)
    (m : ℚ) : ∀ (n : ℕ) (c : OKLCHColor), 19/20 - (n : ℚ) * (1/50) ≤ c.l →
    m ≤ ratio (ensureContrastAux ratio bg m 1 n c) bg ∨
    (ensureContrastAux ratio bg m 1 n c).l ≤ 1/20 ∨
    19/20 ≤ (ensureContrastAux ratio bg m 1 n c).l := by
  intro n
  induction n with
  | zero =>
    intro c hc
    rw [ensureContrastAux]
    right; right
    simpa using hc
  | succ n ih =>
    intro c hc
    rw [ensureContrastAux]
    split
    case isTrue hguard =>
      apply ih
      simp only [setL_l]
      push_cast at hc
      linarith
    case isFalse hguard =>
      push_neg at hguard
      rcases lt_or_le (ratio c bg) m with hr | hr
      · rcases le_or_lt c.l (1/20) with hl | hl
        · exact Or.inr (Or.inl hl)
        · exact Or.inr (Or.inr (hguard hr hl))
      · exact Or.inl hr

/-- Starting inside (0.03, 0.97), the loop keeps the lightness inside
(0.03, 0.97): the guard only steps from inside (0.05, 0.95), by ±0.02. -/
theorem ensureContrastAux_l_bounds (ratio : OKLCHColor → OKLCHColor → ℚ) (bg : OKLCHColor)
    (m d : ℚ) (hd : d = 1 ∨ d = -1) : ∀ (n : ℕ) (c : OKLCHColor),
    3/100 < c.l → c.l < 97/100 →
    3/100 < (ensureContrastAux ratio bg m d n c).l ∧
    (ensureContrastAux ratio bg m d n c).l < 97/100 := by
  intro n
  induction n with
  | zero => intro c h1 h2; rw [ensureContrastAux]; exact ⟨h1, h2⟩
  | succ n ih =>
    intro c h1 h2
    rw [ensureContrastAux]
    split
    case isTrue hguard =>
      apply ih
      · simp only [setL_l]
        rcases hd with h | h <;> rw [h] <;> linarith [hguard.2.1, hguard.2.2]
      · simp only [setL_l]
        rcases hd with h | h <;> rw [h] <;> linarith [hguard.2.1, hguard.2.2]
    case isFalse hguard => exact ⟨h1, h2⟩

/-- When the guard is false at entry, any amount of fuel returns the input
unchanged. -/
theorem ensureContrastAux_guard_false (ratio : OKLCHColor → OKLCHColor → ℚ) (bg : OKLCHColor)
    (m d : ℚ) (n : ℕ) (c : OKLCHColor)
    (h : ¬(ratio c bg < m ∧ 1/20 < c.l ∧ c.l < 19/20)) :
    ensureContrastAux ratio bg m d n c = c := by
  cases n with
  | zero => rw [ensureContrastAux]
  | succ n => rw [ensureContrastAux, if_neg h]

/-- Fuel beyond what the start lightness requires is unobservable
(darkening direction). -/
theorem ensureContrastAux_stable_neg (ratio : OKLCHColor → OKLCHColor → ℚ) (bg : OKLCHColor)
    (m : ℚ) : ∀ (n k : ℕ) (c : OKLCHColor), c.l ≤ 1/20 + (n : ℚ) * (1/50) →
    ensureContrastAux ratio bg m (-1) (n + k) c = ensureContrastAux ratio bg m (-1) n c := by
  intro n
  induction n with
  | zero =>
    intro k c hc
    simp only [Nat.cast_zero, zero_mul, add_zero] at hc
    rw [ensureContrastAux_guard_false, ensureContrastAux_guard_false]
    · intro hg; linarith [hg.2.1]
    · intro hg; linarith [hg.2.1]
  | succ n ih =>
    intro k c hc
    have hrw : n + 1 + k = (n + k) + 1 := by omega
    rw [hrw, ensureContrastAux, ensureContrastAux]
    split
    case isTrue hguard =>
      apply ih
      simp only [setL_l]
      push_cast at hc
      linarith
    case isFalse hguard => rfl

/-- Fuel beyond what the start lightness requires is unobservable
(lightening direction). -/
theorem ensureContrastAux_stable_pos (ratio : OKLCHColor → OKLCHColor → ℚ) (bg : OKLCHColor)
    (m : ℚ) : ∀ (n k : ℕ) (c : OKLCHColor), 19/20 - (n : ℚ) * (1/50) ≤ c.l →
    ensureContrastAux ratio bg m 1 (n + k) c = ensureContrastAux ratio bg m 1 n c := by
  intro n
  induction n with
  | zero =>
    intro k c hc
    simp only [Nat.cast_zero, zero_mul, sub_zero] at hc
    rw [ensureContrastAux_guard_false, ensureContrastAux_guard_false]
    · intro hg; linarith [hg.2.2]
    · intro hg; linarith [hg.2.2]
  | succ n ih =>
    intro k c hc
    have hrw : n + 1 + k = (n + k) + 1 := by omega
    rw [hrw, ensureContrastAux, ensureContrastAux]
    split
    case isTrue hguard =>
      apply ih
      simp only [setL_l]
      push_cast at hc
      linarith
    case isFalse hguard => rfl

/-- Exit condition of a full `ensureContrast` run, for any start lightness
in [0.03, 0.97]: the target is met or the lightness has left (0.05, 0.95). -/
theorem ensureContrast_post (ratio : OKLCHColor → OKLCHColor → ℚ)
    (fg bg : OKLCHColor) (m : ℚ) (hfg1 : 3/100 ≤ fg.l) (hfg2 : fg.l ≤ 97/100) :
    m ≤ ratio (ensureContrast ratio fg bg m) bg ∨
    (ensureContrast ratio fg bg m).l ≤ 1/20 ∨ 19/20 ≤ (ensureContrast ratio fg bg m).l := by
  unfold ensureContrast contrastFuel contrastDirection
  split
  · exact ensureContrastAux_post_neg ratio bg m 46 fg (by push_cast; linarith)
  · exact ensureContrastAux_post_pos ratio bg m 46 fg (by push_cast; linarith)

/-- C2: for every contrast oracle, base hue, harmony mode and theme flag,
the palette returned by `generatePalette` has
`ratio text background ≥ 7.0`, or the repair loop stopped with the text
lightness at or beyond the boundary of the open interval (0.05, 0.95);
the repair pass applies in every mode and theme. -/
theorem C2_contrast_floor (ratio : OKLCHColor → OKLCHColor → ℚ) (baseHue : ℚ)
    (mode : HarmonyMode) (isDark : Bool) :
    7 ≤ ratio (generatePalette ratio baseHue mode isDark).text
        (generatePalette ratio baseHue mode isDark).background ∨
    (generatePalette ratio baseHue mode isDark).text.l ≤ 1/20 ∨
    19/20 ≤ (generatePalette ratio baseHue mode isDark).text.l := by
  cases mode <;> cases isDark <;>
    exact ensureContrast_post ratio _ _ 7 (by norm_num [initialPalette]) (by norm_num [initialPalette])

/-- C8: `generatePalette (hue + 360)` and `generatePalette hue` return
identical palettes for every mode and theme, because all hue arithmetic
goes through `normalizeHue`. -/
theorem C8_hue_period (ratio : OKLCHColor → OKLCHColor → ℚ) (h : ℚ)
    (mode : HarmonyMode) (isDark : Bool) :
    generatePalette ratio (h + 360) mode isDark = generatePalette ratio h mode isDark := by
  have hinit : initialPalette (h + 360) mode isDark = initialPalette h mode isDark := by
    simp only [initialPalette, normalizeHue_add_360]
  simp only [generatePalette, hinit]

/-- C9: in triadic mode the secondary hue is `normalizeHue (h + 120)`, the
accent hue is `normalizeHue (h + 240)`, and the text hue is also shifted to
`normalizeHue (h + 120)`; in the other three modes the text hue is the
normalized base hue. -/
theorem C9_triadic_hues (ratio : OKLCHColor → OKLCHColor → ℚ) (baseHue : ℚ) (isDark : Bool) :
    ((generatePalette ratio baseHue .triadic isDark).secondary.h = normalizeHue (baseHue + 120) ∧
     (generatePalette ratio baseHue .triadic isDark).accent.h = normalizeHue (baseHue + 240) ∧
     (generatePalette ratio baseHue .triadic isDark).text.h = normalizeHue (baseHue + 120)) ∧
    ((generatePalette ratio baseHue .monochromatic isDark).text.h = normalizeHue baseHue ∧
     (generatePalette ratio baseHue .analogous isDark).text.h = normalizeHue baseHue ∧
     (generatePalette ratio baseHue .splitComplementary isDark).text.h = normalizeHue baseHue) := by
  constructor <;> refine ⟨?_, ?_, ?_⟩ <;>
    simp [generatePalette, initialPalette, ensureContrast_h, normalizeHue_add_left]

/-- C10: the repair step modifies only lightness — chroma and hue of its
result equal those of its input — and consequently in every generated
palette the background, secondary, accent, muted and border roles, and the
chroma and hue of text and primary, are exactly as initially constructed
for the given mode. -/
theorem C10_frame (ratio : OKLCHColor → OKLCHColor → ℚ) :
    (∀ (fg bg : OKLCHColor) (m : ℚ),
      (ensureContrast ratio fg bg m).c = fg.c ∧ (ensureContrast ratio fg bg m).h = fg.h) ∧
    ∀ (baseHue : ℚ) (mode : HarmonyMode) (isDark : Bool),
      (generatePalette ratio baseHue mode isDark).background
          = (initialPalette baseHue mode isDark).background ∧
      (generatePalette ratio baseHue mode isDark).secondary
          = (initialPalette baseHue mode isDark).secondary ∧
      (generatePalette ratio baseHue mode isDark).accent
          = (initialPalette baseHue mode isDark).accent ∧
      (generatePalette ratio baseHue mode isDark).muted
          = (initialPalette baseHue mode isDark).muted ∧
      (generatePalette ratio baseHue mode isDark).border
          = (initialPalette baseHue mode isDark).border ∧
      (generatePalette ratio baseHue mode isDark).text.c
          = (initialPalette baseHue mode isDark).text.c ∧
      (generatePalette ratio baseHue mode isDark).text.h
          = (initialPalette baseHue mode isDark).text.h ∧
      (generatePalette ratio baseHue mode isDark).primary.c
          = (initialPalette baseHue mode isDark).primary.c ∧
      (generatePalette ratio baseHue mode isDark).primary.h
          = (initialPalette baseHue mode isDark).primary.h := by
  refine ⟨fun fg bg m => ⟨ensureContrast_c ratio fg bg m, ensureContrast_h ratio fg bg m⟩, ?_⟩
  intro baseHue mode isDark
  exact ⟨rfl, rfl, rfl, rfl, rfl,
    ensureContrast_c ratio _ _ 7, ensureContrast_h ratio _ _ 7,
    ensureContrast_c ratio _ _ (9/2), ensureContrast_h ratio _ _ (9/2)⟩

/-- C5 (amended): the repair step does not clamp.  When the input lightness
lies in the loop interval (0.05, 0.95), the returned lightness lies in
(0.03, 0.97) — within one 0.02 step of the interval — and when the input
lightness is outside the interval the input is returned unchanged; no
error is ever raised. -/
theorem C5_repair_bounds (ratio : OKLCHColor → OKLCHColor → ℚ) (fg bg : OKLCHColor) (m : ℚ) :
    (1/20 < fg.l → fg.l < 19/20 →
      3/100 < (ensureContrast ratio fg bg m).l ∧ (ensureContrast ratio fg bg m).l < 97/100) ∧
    (¬(1/20 < fg.l ∧ fg.l < 19/20) → ensureContrast ratio fg bg m = fg) := by
  constructor
  · intro h1 h2
    apply ensureContrastAux_l_bounds
    · unfold contrastDirection
      split
      · right; rfl
      · left; rfl
    · linarith
    · linarith
  · intro h
    apply ensureContrastAux_guard_false
    intro hg
    exact h ⟨hg.2.1, hg.2.2⟩

/-- C5 counterexample: with an oracle that never reaches the target (as for
a physically unreachable contrast), the repair of a 0.18-lightness
foreground against a light background returns lightness 0.04 = 1/25, which
lies outside the closed interval [0.05, 0.95] claimed by the spec. -/
theorem C5_counterexample :
    (ensureContrast oracle1 ⟨18/100, 2/100, 220⟩ ⟨98/100, 1/100, 220⟩ 7).l = 1/25 ∧
    ¬(1/20 ≤ (ensureContrast oracle1 ⟨18/100, 2/100, 220⟩ ⟨98/100, 1/100, 220⟩ 7).l) := by
  constructor <;>
    norm_num [ensureContrast, ensureContrastAux, contrastFuel, contrastDirection, oracle1]

/-- C5 witness: the amended bound evaluated at a concrete mid-lightness
foreground. -/
theorem C5_witness :
    3/100 < (ensureContrast oracle21 wFg wBg 7).l ∧
    (ensureContrast oracle21 wFg wBg 7).l < 97/100 :=
  (C5_repair_bounds oracle21 wFg wBg 7).1 (by norm_num [wFg]) (by norm_num [wFg])

/-- C6: for every start lightness in the open interval (0.05, 0.95), 45
iterations of the repair loop already reach a stopping state: running the
loop with fuel `45 + k` for any `k` returns exactly `ensureContrast`;
the loop never runs forever. -/
theorem C6_termination (ratio : OKLCHColor → OKLCHColor → ℚ) (fg bg : OKLCHColor) (m : ℚ)
    (h1 : 1/20 < fg.l) (h2 : fg.l < 19/20) :
    ∀ k : ℕ, ensureContrastAux ratio bg m (contrastDirection bg) (45 + k) fg
      = ensureContrast ratio fg bg m := by
  intro k
  unfold ensureContrast contrastFuel contrastDirection
  split
  · rw [ensureContrastAux_stable_neg ratio bg m 45 k fg (by push_cast; linarith)]
    rw [show (46 : ℕ) = 45 + 1 from rfl,
      ensureContrastAux_stable_neg ratio bg m 45 1 fg (by push_cast; linarith)]
  · rw [ensureContrastAux_stable_pos ratio bg m 45 k fg (by push_cast; linarith)]
    rw [show (46 : ℕ) = 45 + 1 from rfl,
      ensureContrastAux_stable_pos ratio bg m 45 1 fg (by push_cast; linarith)]

/-- C6 witness: the termination bound evaluated at a concrete foreground
and background. -/
theorem C6_witness :
    ensureContrastAux oracle21 wBg 7 (contrastDirection wBg) (45 + 0) wFg
      = ensureContrast oracle21 wFg wBg 7 :=
  C6_termination oracle21 wFg wBg 7 (by norm_num [wFg]) (by norm_num [wFg]) 0

/-! Helper lemmas about the validator. -/

/-- Every successful run of the validator is the assembly of the five
section results, in source order. -/
theorem validateDesignDNA_ok_shape (ratio : OKLCHColor → OKLCHColor → ℚ) (dna : DesignDNA)
    (r : ValidationResult) (h : validateDesignDNA ratio dna = .ok r) :
    ∃ t g u, validateTypography dna.primitives.typography = .ok t ∧
      validateGeometry dna.primitives.geometry = .ok g ∧
      validateUniqueness dna.meta dna.generative = .ok u ∧
      r = mkResult
        ((validateColor ratio dna.primitives.color).1 ++ t.1 ++
          (validateMotion dna.primitives.motion).1 ++ g.1 ++ u.1)
        ((validateColor ratio dna.primitives.color).2.1 ++ t.2.1 ++
          (validateMotion dna.primitives.motion).2.1 ++ g.2.1 ++ u.2.1)
        ⟨(validateColor ratio dna.primitives.color).2.2, t.2.2,
         (validateMotion dna.primitives.motion).2.2, g.2.2, u.2.2,
         if ((validateColor ratio dna.primitives.color).1 ++ t.1 ++
             (validateMotion dna.primitives.motion).1 ++ g.1 ++ u.1).isEmpty then 4 else 2⟩ := by
  unfold validateDesignDNA validateCore at h
  cases ht : validateTypography dna.primitives.typography with
  | error e => rw [ht] at h; simp [Except.bind, Except.map] at h
  | ok t =>
    rw [ht] at h
    cases hg : validateGeometry dna.primitives.geometry with
    | error e => rw [hg] at h; simp [Except.bind, Except.map] at h
    | ok g =>
      rw [hg] at h
      cases hu : validateUniqueness dna.meta dna.generative with
      | error e => rw [hu] at h; simp [Except.bind, Except.map] at h
      | ok u =>
        rw [hu] at h
        simp only [Except.bind, Except.map] at h
        cases h
        exact ⟨t, g, u, rfl, rfl, rfl, rfl⟩

/-- C1: whenever the validator returns a result, its `valid` flag is true
exactly when the error list is empty and the minimum of the six category
scores is at least 3. -/
theorem C1_valid_iff (ratio : OKLCHColor → OKLCHColor → ℚ) (dna : DesignDNA)
    (r : ValidationResult) (h : validateDesignDNA ratio dna = .ok r) :
    r.valid = true ↔ (r.errors = [] ∧ 3 ≤ minScore r.scores) := by
  obtain ⟨t, g, u, -, -, -, hr⟩ := validateDesignDNA_ok_shape ratio dna r h
  subst hr
  simp only [mkResult, Bool.and_eq_true, decide_eq_true_eq, List.isEmpty_iff]
  tauto

/-- Typography throws exactly when the heading stack is absent. -/
theorem validateTypography_error_iff (t : TypographyPrimitive) :
    validateTypography t = .error () ↔ t.families.heading = none := by
  cases h : t.families.heading <;> simp [validateTypography, h]

/-- Geometry throws exactly when the border-radius mapping is absent. -/
theorem validateGeometry_error_iff (g : GeometryPrimitive) :
    validateGeometry g = .error () ↔ g.borderRadius = none := by
  cases h : g.borderRadius <;> simp [validateGeometry, h]

/-- Uniqueness throws exactly when the personality array is absent. -/
theorem validateUniqueness_error_iff (m : Meta) (gen : Option Generative) :
    validateUniqueness m gen = .error () ↔ m.personality = none := by
  cases h : m.personality with
  | none => simp [validateUniqueness, h]
  | some ps =>
    simp only [validateUniqueness, h]
    split <;> simp

/-- C7 (amended): the validator throws a `TypeError` exactly when the
heading stack, the border-radius mapping, or the personality array is
absent; all other modelled absences (palette text/background, springs,
spacing, generative noise, seed, layout jitter) are tolerated. -/
theorem C7_crash_iff (ratio : OKLCHColor → OKLCHColor → ℚ) (dna : DesignDNA) :
    validateDesignDNA ratio dna = .error () ↔
      (dna.primitives.typography.families.heading = none ∨
       dna.primitives.geometry.borderRadius = none ∨
       dna.meta.personality = none) := by
  unfold validateDesignDNA validateCore
  cases ht : validateTypography dna.primitives.typography with
  | error e =>
    cases e
    simp only [Except.bind, Except.map]
    simp only [eq_self_iff_true, true_iff]
    exact Or.inl ((validateTypography_error_iff _).mp ht)
  | ok t =>
    cases hg : validateGeometry dna.primitives.geometry with
    | error e =>
      cases e
      simp only [Except.bind, Except.map]
      simp only [eq_self_iff_true, true_iff]
      exact Or.inr (Or.inl ((validateGeometry_error_iff _).mp hg))
    | ok g =>
      cases hu : validateUniqueness dna.meta dna.generative with
      | error e =>
        cases e
        simp only [Except.bind, Except.map]
        simp only [eq_self_iff_true, true_iff]
        exact Or.inr (Or.inr ((validateUniqueness_error_iff _ _).mp hu))
      | ok u =>
        simp only [Except.bind, Except.map]
        constructor
        · intro hcontra
          exact absurd hcontra (by simp)
        · rintro (hn | hn | hn)
          · rw [(validateTypography_error_iff _).mpr hn] at ht; cases ht
          · rw [(validateGeometry_error_iff _).mpr hn] at hg; cases hg
          · rw [(validateUniqueness_error_iff _ _).mpr hn] at hu; cases hu

/-- A non-"oklch" model always pushes the model error; the color score is 1
unless both palette entries are present, in which case the later contrast
branch overwrites it with 4 (ratio at least 7) or 3 (ratio at least 4.5). -/
theorem validateColor_model_err (ratio : OKLCHColor → OKLCHColor → ℚ) (c : ColorPrimitive)
    (h : c.model ≠ "oklch") :
    ("Color model must be \"oklch\"" ∈ (validateColor ratio c).1) ∧
    (validateColor ratio c).2.2 =
      (match c.palette.text, c.palette.background with
       | some tc, some bc =>
         if 7 ≤ ratio tc bc then 4 else if 9/2 ≤ ratio tc bc then 3 else 1
       | _, _ => 1) := by
  unfold validateColor
  cases htx : c.palette.text with
  | none => cases hbg : c.palette.background <;> simp [h]
  | some tc =>
    cases hbg : c.palette.background with
    | none => simp [h]
    | some bc =>
      simp only [h, ite_true, if_pos, ne_eq, not_false_iff]
      constructor
      · simp
      · rcases le_or_lt 7 (ratio tc bc) with h7 | h7
        · rw [if_pos h7, if_pos h7]
        · rw [if_neg (not_le.mpr h7), if_neg (not_le.mpr h7)]
          rcases le_or_lt (9/2 : ℚ) (ratio tc bc) with h45 | h45
          · rw [if_pos h45, if_pos h45]
          · rw [if_neg (not_le.mpr h45), if_neg (not_le.mpr h45), if_pos h45]

/-- C4 (amended): for every document whose color model is not "oklch", the
validator emits the hard error mentioning the color-model requirement, and
the returned colorSystem score is 1 unless both text and background
palette entries are present, in which case the contrast branch overwrites
the score with 4 (recomputed ratio at least 7) or 3 (at least 4.5). -/
theorem C4_model_error (ratio : OKLCHColor → OKLCHColor → ℚ) (dna : DesignDNA)
    (r : ValidationResult) (h : validateDesignDNA ratio dna = .ok r)
    (hm : dna.primitives.color.model ≠ "oklch") :
    ("Color model must be \"oklch\"" ∈ r.errors) ∧
    r.scores.colorSystem =
      (match dna.primitives.color.palette.text, dna.primitives.color.palette.background with
       | some tc, some bc =>
         if 7 ≤ ratio tc bc then 4 else if 9/2 ≤ ratio tc bc then 3 else 1
       | _, _ => 1) := by
  obtain ⟨t, g, u, -, -, -, hr⟩ := validateDesignDNA_ok_shape ratio dna r h
  subst hr
  have hc := validateColor_model_err ratio dna.primitives.color hm
  constructor
  · simp only [mkResult, List.mem_append]
    exact Or.inl (Or.inl (Or.inl (Or.inl hc.1)))
  · exact hc.2

/-- A body stack whose first font lower-cases to "inter" behaves exactly
like one starting with an unbanned font: no error, no score change. -/
theorem validateTypography_body_swap (t : TypographyPrimitive) (b : List String)
    (hb : t.families.body.head?.map strToLower = some "inter")
    (hb2 : fontBanned (b.head?.map strToLower) = false) :
    validateTypography t
      = validateTypography { t with families := { t.families with body := b } } := by
  unfold validateTypography
  cases hh : t.families.heading with
  | none => rfl
  | some hs =>
    simp only [hh, hb]
    have h1 : ¬(fontBanned (some "inter") = true ∧ (some "inter" : Option String) ≠ some "inter") := by
      simp
    have h2 : ¬(fontBanned (b.head?.map strToLower) = true ∧
        b.head?.map strToLower ≠ some "inter") := by
      simp [hb2]
    simp only [if_neg h1, if_neg h2]

/-- A heading stack whose first font lower-cases to "inter" yields the
banned-font hard error and typography score 1. -/
theorem validateTypography_heading_inter (t : TypographyPrimitive) (hs : List String)
    (hh : t.families.heading = some hs) (hf : hs.head?.map strToLower = some "inter") :
    ∃ E W S, validateTypography t = .ok (E, W, S) ∧ S = 1 ∧
      "Heading font \"inter\" is banned (too common)" ∈ E := by
  unfold validateTypography
  rw [hh]
  simp only [hf]
  have hban : fontBanned (some "inter") = true := by decide
  have hmsg : "Heading font \"" ++ optFontStr (some "inter") ++ "\" is banned (too common)"
      = "Heading font \"inter\" is banned (too common)" := by decide
  refine ⟨_, _, _, rfl, ?_, ?_⟩
  · simp only [hban, if_true]
    split_ifs <;> simp
  · simp only [hban, if_true, hmsg]
    split_ifs <;> simp

/-- C3 (amended): a body font that lower-cases exactly to "inter" produces
no hard error and leaves the typography score unchanged — the whole
validator result equals the one for an unbanned body font (the source caps
the score only inside the branch that the exact string "inter" skips) —
while a heading font that lower-cases to "inter" produces the banned-font
hard error with typography score 1. -/
theorem C3_inter_escape (ratio : OKLCHColor → OKLCHColor → ℚ) (dna : DesignDNA) :
    (dna.primitives.typography.families.body.head?.map strToLower = some "inter" →
      validateDesignDNA ratio dna = validateDesignDNA ratio (withBodyFonts dna ["Zilla Slab"])) ∧
    (∀ (hs : List String) (r : ValidationResult),
      dna.primitives.typography.families.heading = some hs →
      hs.head?.map strToLower = some "inter" →
      validateDesignDNA ratio dna = .ok r →
      r.scores.typographySystem = 1 ∧
      "Heading font \"inter\" is banned (too common)" ∈ r.errors) := by
  constructor
  · intro hb
    have hsec : validateTypography dna.primitives.typography
        = validateTypography (withBodyFonts dna ["Zilla Slab"]).primitives.typography :=
      validateTypography_body_swap dna.primitives.typography ["Zilla Slab"] hb (by decide)
    unfold validateDesignDNA validateCore
    rw [hsec]
    rfl
  · intro hs r hh hf hok
    obtain ⟨t, g, u, ht, -, -, hr⟩ := validateDesignDNA_ok_shape ratio dna r hok
    obtain ⟨E, W, S, hts, hS, hmem⟩ := validateTypography_heading_inter _ hs hh hf
    rw [ht] at hts
    injection hts with hts
    subst hts
    subst hr
    constructor
    · exact hS
    · simp only [mkResult, List.mem_append]
      exact Or.inl (Or.inl (Or.inl (Or.inr hmem)))

/-! Evaluation of the validator on the concrete documents. -/

/-- Color section of `goodDoc`. -/
theorem cGood_eval : validateColor oracle13 cGood = ([], [], 4) := by
  norm_num [validateColor, cGood, oracle13]

/-- Typography section of `goodDoc`: body "Inter" yields no error and no cap. -/
theorem tGood_eval : validateTypography tGood = .ok ([], [], 4) := by
  have h1 : strToLower "Fraunces" = "fraunces" := by decide
  have h2 : strToLower "Inter" = "inter" := by decide
  have h3 : fontBanned (some "fraunces") = false := by decide
  have h4 : fontBanned (some "inter") = true := by decide
  norm_num [validateTypography, tGood, h1, h2, h3, h4]

/-- Motion section of `goodDoc`. -/
theorem mGood_eval : validateMotion mGood = ([], [], 4) := by
  have h : ([("gentle", (⟨120, 14, 1⟩ : Spring))] : List (String × Spring)).lookup "gentle"
      = some ⟨120, 14, 1⟩ := by norm_num [List.lookup]
  norm_num [validateMotion, mGood, h]

/-- Geometry section of `goodDoc`. -/
theorem gGood_eval : validateGeometry gGood = .ok ([], [], 4) := by
  have h5 : (List.filter (fun v => !decide (v = "0px") && !decide (v = "9999px"))
      ["4px", "12px"]).dedup.length = 2 := by decide
  norm_num [validateGeometry, gGood, h5]

/-- Uniqueness section of `goodDoc`. -/
theorem uGood_eval : validateUniqueness metaGood genGood = .ok ([], [], 4) := by
  have h6 : strToLower "brutalist" ∉ GENERIC_PERSONALITY_WORDS := by decide
  have h7 : strToLower "warm" ∉ GENERIC_PERSONALITY_WORDS := by decide
  have h8 : ¬("demo-seed" = "") := by decide
  norm_num [validateUniqueness, metaGood, genGood, h6, h7, h8, strFalsy]

/-- Full validation of `goodDoc`: valid, no errors, all scores 4. -/
theorem goodDoc_eval : validateDesignDNA oracle13 goodDoc = .ok goodRes := by
  simp [validateDesignDNA, validateCore, goodDoc, goodRes, cGood_eval, tGood_eval,
    mGood_eval, gGood_eval, uGood_eval, mkResult, minScore, Except.bind, Except.map]

/-- Color section of `hexDoc`: hard error, but score overwritten to 4. -/
theorem cHex_eval : validateColor oracle13 { cGood with model := "hex" }
    = (["Color model must be \"oklch\""], [], 4) := by
  have hne : ¬("hex" = "oklch") := by decide
  norm_num [validateColor, cGood, oracle13, hne]

/-- Full validation of `hexDoc`. -/
theorem hexDoc_eval : validateDesignDNA oracle13 hexDoc = .ok hexRes := by
  simp [validateDesignDNA, validateCore, hexDoc, goodDoc, hexRes, cHex_eval, tGood_eval,
    mGood_eval, gGood_eval, uGood_eval, mkResult, minScore, Except.bind, Except.map]

/-- Color section of `hexNoPalDoc`: hard error and score 1. -/
theorem cHexNoPal_eval : validateColor oracle13
    { model := "hex", palette := { text := none, background := none },
      contrastRatios := { textOnBackground := 13 } }
    = (["Color model must be \"oklch\""], [], 1) := by
  have hne : ¬("hex" = "oklch") := by decide
  norm_num [validateColor, hne]

/-- Full validation of `hexNoPalDoc`. -/
theorem hexNoPalDoc_eval : validateDesignDNA oracle13 hexNoPalDoc = .ok hexNoPalRes := by
  simp [validateDesignDNA, validateCore, hexNoPalDoc, goodDoc, hexNoPalRes, cHexNoPal_eval,
    tGood_eval, mGood_eval, gGood_eval, uGood_eval, mkResult, minScore, Except.bind, Except.map]

/-- Typography section of `interHeadDoc`: heading "Inter" is a hard error
with score 1. -/
theorem tInterHead_eval : validateTypography
    { tGood with families := { heading := some ["Inter", "serif"], body := ["Inter", "sans-serif"] } }
    = .ok (["Heading font \"inter\" is banned (too common)"], [], 1) := by
  have h2 : strToLower "Inter" = "inter" := by decide
  have h4 : fontBanned (some "inter") = true := by decide
  have hmsg : "Heading font \"" ++ optFontStr (some "inter") ++ "\" is banned (too common)"
      = "Heading font \"inter\" is banned (too common)" := by decide
  norm_num [validateTypography, tGood, h2, h4, hmsg]

/-- Full validation of `interHeadDoc`. -/
theorem interHeadDoc_eval : validateDesignDNA oracle13 interHeadDoc = .ok interHeadRes := by
  simp [validateDesignDNA, validateCore, interHeadDoc, goodDoc, interHeadRes, cGood_eval,
    tInterHead_eval, mGood_eval, gGood_eval, uGood_eval, mkResult, minScore,
    Except.bind, Except.map]

/-- C3 counterexample: `goodDoc` has a body font exactly "Inter", yet the
validator returns no error and typography score 4, not a score capped
at 2. -/
theorem C3_counterexample :
    (validateDesignDNA oracle13 goodDoc).toOption.map
        (fun r => (r.errors, r.scores.typographySystem)) = some ([], 4) ∧
    ¬((4 : ℕ) ≤ 2) := by
  rw [goodDoc_eval]
  exact ⟨rfl, by norm_num⟩

/-- C4 counterexample: `hexDoc` has color model "hex", the hard error is
emitted, but the colorSystem score is 4, not 1, because the contrast
branch overwrites it. -/
theorem C4_counterexample :
    (validateDesignDNA oracle13 hexDoc).toOption.map
        (fun r => (r.errors, r.scores.colorSystem))
      = some (["Color model must be \"oklch\""], 4) ∧
    ¬((4 : ℕ) = 1) := by
  rw [hexDoc_eval]
  exact ⟨rfl, by norm_num⟩

/-- C7 counterexample: a document identical to `goodDoc` but with
`meta.personality` absent makes the validator throw instead of tolerating
the absence. -/
theorem C7_counterexample : validateDesignDNA oracle13 noPersonalityDoc = .error () := by
  simp [validateDesignDNA, validateCore, noPersonalityDoc, goodDoc, metaGood, cGood_eval,
    tGood_eval, mGood_eval, gGood_eval, validateUniqueness, Except.bind, Except.map]

/-- C1 witness: the pass rule evaluated on the concrete `goodDoc` run. -/
theorem C1_witness :
    goodRes.valid = true ↔ (goodRes.errors = [] ∧ 3 ≤ minScore goodRes.scores) :=
  C1_valid_iff oracle13 goodDoc goodRes goodDoc_eval

/-- C4 witness: the amended claim evaluated on the concrete `hexNoPalDoc`
run, where the score stays 1. -/
theorem C4_witness :
    ("Color model must be \"oklch\"" ∈ hexNoPalRes.errors) ∧
    hexNoPalRes.scores.colorSystem = 1 :=
  C4_model_error oracle13 hexNoPalDoc hexNoPalRes hexNoPalDoc_eval (by decide)

/-- C3 witness: both halves of the amended claim evaluated on concrete
documents. -/
theorem C3_witness :
    (validateDesignDNA oracle13 goodDoc
       = validateDesignDNA oracle13 (withBodyFonts goodDoc ["Zilla Slab"])) ∧
    (interHeadRes.scores.typographySystem = 1 ∧
     "Heading font \"inter\" is banned (too common)" ∈ interHeadRes.errors) :=
  ⟨(C3_inter_escape oracle13 goodDoc).1 (by decide),
   (C3_inter_escape oracle13 interHeadDoc).2 ["Inter", "serif"] interHeadRes
     (by decide) (by decide) interHeadDoc_eval⟩

end AntiSlop
